import Mathlib

set_option maxHeartbeats 1000000
set_option maxRecDepth 10000

/-! Shallow embedding of the private-chat backend (backend/server.js together
with the read/edit variant of the same file, and backend/models/privateMessage.js).
JS strings are modelled as lists of characters, timestamps and socket
connection ids as naturals, and the MongoDB collections as Lean lists kept in
insertion order.  Every operation returns the new server state together with
the list of socket events it emits, in emission order. -/

namespace Chat

/-- A user identity: the string form of a Mongo ObjectId, modelled as the
list of its characters. -/
abbrev UserId := List Char

/-- JS string comparison by code units, as used by the default
Array.prototype.sort inside getPrivateRoomName. -/
def strLess : List Char → List Char → Bool
  | _, [] => false
  | [], _ :: _ => true
  | a :: as, b :: bs => if a < b then true else if b < a then false else strLess as bs

/-- The separator string of getPrivateRoomName: join with the literal
"-private". -/
def roomSep : List Char := "-private".toList

/-- server.js lines 142-144: [user1Id, user2Id].sort().join('-private'). -/
def getPrivateRoomName (user1Id user2Id : UserId) : List Char :=
  if strLess user2Id user1Id then user2Id ++ roomSep ++ user1Id
  else user1Id ++ roomSep ++ user2Id

/-- Whitespace characters handled by the model of String.prototype.trim.
The JS function strips all Unicode whitespace; the space, tab, newline and
carriage-return characters are the representatives used here. -/
def isWs (c : Char) : Bool :=
  c == ' ' || c == '\t' || c == '\n' || c == '\r'

/-- Model of JS String.prototype.trim: drop whitespace from both ends. -/
def jsTrim (l : List Char) : List Char :=
  ((l.dropWhile isWs).reverse.dropWhile isWs).reverse

/-- The file descriptor attached to non-text messages
(privateMessage.js fileData subdocument, produced by the upload endpoint). -/
structure FileData where
  filename : List Char
  originalName : List Char
  size : Nat
  mimetype : List Char
  url : List Char
deriving DecidableEq

/-- The messageType enum of privateMessageSchema: 'text' | 'file' | 'image'. -/
inductive MessageType where
  | text
  | file
  | image
deriving DecidableEq

/-- A persisted private message (privateMessage.js schema).  mid stands for
the Mongo _id, createdAt for the timestamp stamped at persistence. -/
structure PrivateMessage where
  mid : Nat
  content : List Char
  sender : UserId
  receiver : UserId
  messageType : MessageType
  fileData : Option FileData
  readBy : List (UserId × Nat)
  edited : Bool
  editedAt : Option Nat
  createdAt : Nat
deriving DecidableEq

/-- Mongo $addToSet on the readBy array: append the element at the end
unless an element equal to the whole (user, readAt) document is already
present. -/
def addToSet (e : UserId × Nat) (l : List (UserId × Nat)) : List (UserId × Nat) :=
  if e ∈ l then l else l ++ [e]

/-- Lookup of a message by _id, as done by findByIdAndUpdate. -/
def findById (msgs : List PrivateMessage) (i : Nat) : Option PrivateMessage :=
  msgs.find? (fun m => m.mid == i)

/-- Replacement step of findByIdAndUpdate: rewrite the document whose _id
matches (ids are unique in the store). -/
def updateById (msgs : List PrivateMessage) (i : Nat)
    (f : PrivateMessage → PrivateMessage) : List PrivateMessage :=
  msgs.map (fun m => if m.mid == i then f m else m)

/-- The $or filter of the history queries: sender/receiver in either
orientation between the two identities. -/
def pairMatch (a b : UserId) (m : PrivateMessage) : Bool :=
  (m.sender == a && m.receiver == b) || (m.sender == b && m.receiver == a)

/-- The comparison realised by .sort with createdAt descending. -/
def createdDesc (m1 m2 : PrivateMessage) : Prop := m2.createdAt ≤ m1.createdAt

instance : DecidableRel createdDesc := fun m1 m2 => Nat.decLe m2.createdAt m1.createdAt

/-- Mongo .sort with createdAt descending, realised as a stable sort. -/
def sortByCreatedAtDesc (l : List PrivateMessage) : List PrivateMessage :=
  List.insertionSort createdDesc l

/-- JS Map.set: replace the value of an existing key in place, otherwise
append the binding at the end (Map preserves insertion order). -/
def mapSet {κ β : Type} [DecidableEq κ] : List (κ × β) → κ → β → List (κ × β)
  | [], k, v => [(k, v)]
  | (k', v') :: rest, k, v =>
      if k' = k then (k, v) :: rest else (k', v') :: mapSet rest k v

/-- JS Map.delete: remove the binding of the key.  Map keys are unique, so
removing every matching binding is the same operation. -/
def mapDelete {κ β : Type} [DecidableEq κ] (m : List (κ × β)) (k : κ) : List (κ × β) :=
  m.filter (fun e => e.fst != k)

/-- JS Map.get. -/
def mapGet {κ β : Type} [DecidableEq κ] (m : List (κ × β)) (k : κ) : Option β :=
  (m.find? (fun e => e.fst == k)).map Prod.snd

/-- A value of the in-memory onlineUsers map (server.js lines 159-163). -/
structure OnlineUser where
  uid : UserId
  username : List Char
  socketId : Nat
deriving DecidableEq

/-- The mirrored durable user record: the isOnline / socketId / lastSeen
fields written by User.findByIdAndUpdate on connect and disconnect. -/
structure UserRecord where
  isOnline : Bool
  socketId : Option Nat
  lastSeen : Option Nat
deriving DecidableEq

/-- The server-side mutable state: the durable user mirror, the in-memory
presence map, the per-socket room subscriptions, and the message store with
its id counter.  The typingUsers map is omitted: no operation modelled here
reads it. -/
structure ServerState where
  users : List (UserId × UserRecord)
  onlineUsers : List (UserId × OnlineUser)
  userRooms : List (Nat × List (List Char))
  messages : List PrivateMessage
  nextId : Nat
deriving DecidableEq

/-- The state of a freshly started server process. -/
def emptyState : ServerState :=
  { users := [], onlineUsers := [], userRooms := [], messages := [], nextId := 0 }

/-- Where an emitted event is addressed: one socket (socket.emit), a room
(io.to(room).emit), or every connected socket (io.emit). -/
inductive EvTarget where
  | socketOnly (sid : Nat)
  | room (key : List Char)
  | global
deriving DecidableEq

/-- The payloads of the events the modelled handlers emit.  Message payloads
carry the persisted document; the denormalized usernames added by populate
are projections of it and of the user store. -/
inductive EvPayload where
  | recentMessages (room : List Char) (messages : List PrivateMessage) (targetUserId : UserId)
  | message (m : PrivateMessage)
  | messageRead (m : PrivateMessage)
  | messageEdited (m : PrivateMessage)
  | errorMsg (text : List Char)
  | onlineUsersList (l : List OnlineUser)
deriving DecidableEq

/-- One emitted socket event. -/
structure Event where
  target : EvTarget
  payload : EvPayload
deriving DecidableEq

/-- server.js lines 150-170, the connection handler body: mark the user
online in the durable mirror, overwrite the onlineUsers entry, reset the
socket's room set, and broadcast the online list. -/
def connectionHandler (st : ServerState) (uid : UserId) (username : List Char)
    (sid : Nat) (now : Nat) : ServerState × List Event :=
  let users := mapSet st.users uid { isOnline := true, socketId := some sid, lastSeen := some now }
  let onlineUsers := mapSet st.onlineUsers uid { uid := uid, username := username, socketId := sid }
  let userRooms := mapSet st.userRooms sid []
  ({ st with users := users, onlineUsers := onlineUsers, userRooms := userRooms },
   [{ target := EvTarget.global, payload := EvPayload.onlineUsersList (onlineUsers.map Prod.snd) }])

/-- server.js lines 326-356, the disconnect handler body: mark the user
offline in the durable mirror, delete the onlineUsers entry and the
socket's room set, and broadcast the online list.  The typing-indicator
cleanup of those lines touches only the omitted typingUsers map. -/
def disconnectHandler (st : ServerState) (uid : UserId) (sid : Nat) (now : Nat) :
    ServerState × List Event :=
  let users := mapSet st.users uid { isOnline := false, socketId := none, lastSeen := some now }
  let onlineUsers := mapDelete st.onlineUsers uid
  let userRooms := mapDelete st.userRooms sid
  ({ st with users := users, onlineUsers := onlineUsers, userRooms := userRooms },
   [{ target := EvTarget.global, payload := EvPayload.onlineUsersList (onlineUsers.map Prod.snd) }])

/-- server.js lines 175-215, the joinPrivateChat handler: compute the room
key, leave the previously tracked rooms and subscribe to the new one, load
the last 50 messages of the pair sorted createdAt descending, and emit them
reversed (oldest first) to the requesting socket alone. -/
def joinPrivateChat (st : ServerState) (meId : UserId) (sid : Nat)
    (targetUserId : UserId) : ServerState × List Event :=
  let privateRoomName := getPrivateRoomName meId targetUserId
  let userRooms := mapSet st.userRooms sid [privateRoomName]
  let recent := (sortByCreatedAtDesc (st.messages.filter (pairMatch meId targetUserId))).take 50
  ({ st with userRooms := userRooms },
   [{ target := EvTarget.socketOnly sid,
      payload := EvPayload.recentMessages privateRoomName recent.reverse targetUserId }])

/-- server.js lines 218-276, the sendMessage handler: reject a missing
target with a local error; silently drop blank text; reject text longer
than 1000 characters with a local error; otherwise persist the message
(text content trimmed, empty content for non-text types, fileData passed
through) and broadcast it to the pair's room. -/
def sendMessage (st : ServerState) (senderId : UserId) (sid : Nat)
    (targetUserId : Option UserId) (content : Option (List Char))
    (fileData : Option FileData) (messageType : MessageType) (now : Nat) :
    ServerState × List Event :=
  match targetUserId with
  | none =>
      (st, [{ target := EvTarget.socketOnly sid,
              payload := EvPayload.errorMsg "Target user is required for private messages".toList }])
  | some target =>
      let blank : Bool :=
        match content with
        | none => true
        | some c => (jsTrim c).isEmpty
      if messageType == MessageType.text && blank then (st, [])
      else if messageType == MessageType.text && decide (1000 < (content.getD []).length) then
        (st, [{ target := EvTarget.socketOnly sid,
                payload := EvPayload.errorMsg "Message too long".toList }])
      else
        let msg : PrivateMessage :=
          { mid := st.nextId,
            content :=
              match messageType, content with
              | MessageType.text, some c => jsTrim c
              | _, _ => [],
            sender := senderId, receiver := target,
            messageType := messageType, fileData := fileData,
            readBy := [], edited := false, editedAt := none, createdAt := now }
        ({ st with messages := st.messages ++ [msg], nextId := st.nextId + 1 },
         [{ target := EvTarget.room (getPrivateRoomName senderId target),
            payload := EvPayload.message msg }])

/-- Read/edit server variant lines 223-238, the markAsRead handler:
findByIdAndUpdate with $addToSet of a fresh (user, readAt) document; on a
hit broadcast the updated document to the pair's room, on a miss do
nothing. -/
def markAsRead (st : ServerState) (readerId : UserId) (messageId : Nat)
    (now : Nat) : ServerState × List Event :=
  match findById st.messages messageId with
  | none => (st, [])
  | some m =>
      let updated := { m with readBy := addToSet (readerId, now) m.readBy }
      ({ st with messages := updateById st.messages messageId (fun _ => updated) },
       [{ target := EvTarget.room (getPrivateRoomName updated.sender updated.receiver),
          payload := EvPayload.messageRead updated }])

/-- Read/edit server variant lines 241-256, the editMessage handler:
findByIdAndUpdate replacing content and stamping edited/editedAt; on a hit
broadcast the updated document to the pair's room, on a miss do nothing.
The editor's identity is received but never consulted. -/
def editMessage (st : ServerState) (editorId : UserId) (messageId : Nat)
    (newContent : List Char) (now : Nat) : ServerState × List Event :=
  match findById st.messages messageId with
  | none => (st, [])
  | some m =>
      let updated := { m with content := newContent, edited := true, editedAt := some now }
      ({ st with messages := updateById st.messages messageId (fun _ => updated) },
       [{ target := EvTarget.room (getPrivateRoomName updated.sender updated.receiver),
          payload := EvPayload.messageEdited updated }])

/-! Helper lemmas about the embedded operations. -/

theorem strLess_irrefl (l : List Char) : strLess l l = false := by
  induction l with
  | nil => rfl
  | cons a as ih => simp [strLess, ih]

theorem strLess_asymm {a b : List Char} (h : strLess a b = true) :
    strLess b a = false := by
  induction a generalizing b with
  | nil =>
    cases b with
    | nil => simp [strLess] at h
    | cons d ds => rfl
  | cons c cs ih =>
    cases b with
    | nil => simp [strLess] at h
    | cons d ds =>
      by_cases hcd : c < d
      · have hdc : ¬ d < c := lt_asymm hcd
        simp [strLess, hcd, hdc]
      · by_cases hdc : d < c
        · simp [strLess, hcd, hdc] at h
        · simp [strLess, hcd, hdc] at h ⊢
          exact ih h

theorem strLess_eq_of_both_false {a b : List Char} (h1 : strLess a b = false)
    (h2 : strLess b a = false) : a = b := by
  induction a generalizing b with
  | nil =>
    cases b with
    | nil => rfl
    | cons d ds => simp [strLess] at h1
  | cons c cs ih =>
    cases b with
    | nil => simp [strLess] at h2
    | cons d ds =>
      by_cases hcd : c < d
      · simp [strLess, hcd] at h1
      · by_cases hdc : d < c
        · simp [strLess, hdc, lt_asymm hdc] at h2
        · have hce : c = d := by
            rcases lt_trichotomy c d with h | h | h
            · exact absurd h hcd
            · exact h
            · exact absurd h hdc
          subst hce
          simp [strLess, hcd] at h1 h2
          rw [ih h1 h2]

theorem getPrivateRoomName_comm (a b : UserId) :
    getPrivateRoomName a b = getPrivateRoomName b a := by
  unfold getPrivateRoomName
  cases hba : strLess b a with
  | true => simp [hba, strLess_asymm hba]
  | false =>
    cases hab : strLess a b with
    | true => simp [hab]
    | false => rw [strLess_eq_of_both_false hab hba]

theorem roomSep_eq :
    roomSep = '-' :: ('p' :: 'r' :: 'i' :: 'v' :: 'a' :: 't' :: 'e' :: []) := rfl

theorem append_roomSep_inj {x x' y y' : List Char}
    (hx : '-' ∉ x) (hx' : '-' ∉ x')
    (h : x ++ roomSep ++ y = x' ++ roomSep ++ y') : x = x' ∧ y = y' := by
  induction x generalizing x' with
  | nil =>
    cases x' with
    | nil =>
      refine ⟨rfl, ?_⟩
      simp only [List.nil_append] at h
      exact List.append_cancel_left h
    | cons c cs =>
      exfalso
      rw [roomSep_eq] at h
      simp only [List.nil_append, List.cons_append, List.cons.injEq] at h
      exact hx' (h.1 ▸ List.mem_cons_self c cs)
  | cons c cs ih =>
    cases x' with
    | nil =>
      exfalso
      rw [roomSep_eq] at h
      simp only [List.nil_append, List.cons_append, List.cons.injEq] at h
      exact hx (h.1 ▸ List.mem_cons_self c cs)
    | cons c' cs' =>
      simp only [List.cons_append, List.cons.injEq] at h
      obtain ⟨hc, htail⟩ := h
      have hxs : '-' ∉ cs := fun hm => hx (List.mem_cons_of_mem c hm)
      have hxs' : '-' ∉ cs' := fun hm => hx' (List.mem_cons_of_mem c' hm)
      obtain ⟨h1, h2⟩ := ih hxs hxs' htail
      exact ⟨by rw [hc, h1], h2⟩

theorem getPrivateRoomName_inj {a b c : UserId}
    (hb : '-' ∉ b) (hc : '-' ∉ c) (ha : '-' ∉ a)
    (h : getPrivateRoomName a b = getPrivateRoomName a c) : b = c := by
  unfold getPrivateRoomName at h
  cases hba : strLess b a <;> cases hca : strLess c a <;> simp [hba, hca] at h
  · exact h
  · rw [← List.append_assoc, ← List.append_assoc] at h
    obtain ⟨h1, h2⟩ := append_roomSep_inj ha hc h
    rw [← h1] at hca
    rw [strLess_irrefl] at hca
    exact absurd hca (by simp)
  · rw [← List.append_assoc, ← List.append_assoc] at h
    obtain ⟨h1, h2⟩ := append_roomSep_inj hb ha h
    rw [h1] at hba
    rw [strLess_irrefl] at hba
    exact absurd hba (by simp)
  · exact h

theorem mapGet_cons {κ β : Type} [DecidableEq κ] (k' : κ) (v' : β)
    (rest : List (κ × β)) (k : κ) :
    mapGet ((k', v') :: rest) k = if k' = k then some v' else mapGet rest k := by
  by_cases h : k' = k
  · simp [mapGet, List.find?, h]
  · have hb : (k' == k) = false := by simp [h]
    simp [mapGet, List.find?, hb, h]

theorem mapGet_mapSet_self {κ β : Type} [DecidableEq κ]
    (m : List (κ × β)) (k : κ) (v : β) : mapGet (mapSet m k v) k = some v := by
  induction m with
  | nil => simp [mapSet, mapGet_cons]
  | cons e rest ih =>
    obtain ⟨k', v'⟩ := e
    by_cases h : k' = k
    · simp [mapSet, h, mapGet_cons]
    · simp [mapSet, h, mapGet_cons, ih]

theorem mapGet_mapDelete_self {κ β : Type} [DecidableEq κ]
    (m : List (κ × β)) (k : κ) : mapGet (mapDelete m k) k = none := by
  induction m with
  | nil => rfl
  | cons e rest ih =>
    obtain ⟨k', v'⟩ := e
    by_cases h : k' = k
    · simpa [mapDelete, List.filter_cons, h] using ih
    · simpa [mapDelete, List.filter_cons, h, mapGet_cons] using ih

theorem orderedInsert_append {a : PrivateMessage} {l : List PrivateMessage}
    (h : ∀ b ∈ l, ¬ createdDesc a b) :
    List.orderedInsert createdDesc a l = l ++ [a] := by
  induction l with
  | nil => rfl
  | cons b rest ih =>
    have hb : ¬ createdDesc a b := h b (List.mem_cons_self b rest)
    rw [List.orderedInsert, if_neg hb]
    rw [ih fun x hx => h x (List.mem_cons_of_mem b hx)]
    rfl

theorem sortByCreatedAtDesc_of_chron {l : List PrivateMessage}
    (h : l.Pairwise (fun m1 m2 => m1.createdAt < m2.createdAt)) :
    sortByCreatedAtDesc l = l.reverse := by
  induction l with
  | nil => rfl
  | cons a rest ih =>
    rw [List.pairwise_cons] at h
    obtain ⟨ha, hrest⟩ := h
    unfold sortByCreatedAtDesc at ih ⊢
    rw [List.insertionSort, ih hrest, orderedInsert_append, List.reverse_cons]
    intro b hb
    have hab := ha b (List.mem_reverse.mp hb)
    simp only [createdDesc, not_le]
    exact hab

theorem reverse_take_reverse_suffix {α : Type} (l : List α) (n : Nat) :
    (l.reverse.take n).reverse <:+ l := by
  refine ⟨(l.reverse.drop n).reverse, ?_⟩
  rw [← List.reverse_append, List.take_append_drop, List.reverse_reverse]

theorem findById_mid {msgs : List PrivateMessage} {i : Nat} {m : PrivateMessage}
    (h : findById msgs i = some m) : m.mid = i := by
  unfold findById at h
  have := List.find?_some h
  simpa using this

theorem findById_cons (x : PrivateMessage) (rest : List PrivateMessage) (i : Nat) :
    findById (x :: rest) i = if x.mid = i then some x else findById rest i := by
  by_cases h : x.mid = i
  · simp [findById, List.find?, h]
  · have hb : (x.mid == i) = false := by simp [h]
    simp [findById, List.find?, hb, h]

theorem updateById_cons (x : PrivateMessage) (rest : List PrivateMessage) (i : Nat)
    (f : PrivateMessage → PrivateMessage) :
    updateById (x :: rest) i f = (if x.mid = i then f x else x) :: updateById rest i f := by
  by_cases h : x.mid = i <;> simp [updateById, h]

theorem findById_updateById_replace {msgs : List PrivateMessage} {i : Nat}
    {m u : PrivateMessage} (h : findById msgs i = some m) (hu : u.mid = i) :
    findById (updateById msgs i (fun _ => u)) i = some u := by
  induction msgs with
  | nil => simp [findById] at h
  | cons x rest ih =>
    rw [findById_cons] at h
    rw [updateById_cons, findById_cons]
    by_cases hx : x.mid = i
    · simp [hx, hu]
    · rw [if_neg hx] at h
      simp only [if_neg hx]
      exact ih h

theorem editMessage_found {st : ServerState} {editor : UserId} {i : Nat}
    {nc : List Char} {now : Nat} {m : PrivateMessage}
    (h : findById st.messages i = some m) :
    editMessage st editor i nc now =
      ({ st with messages := (updateById st.messages i (fun _ => { m with content := nc, edited := true, editedAt := some now })) },
       [{ target := EvTarget.room (getPrivateRoomName m.sender m.receiver),
          payload := EvPayload.messageEdited { m with content := nc, edited := true, editedAt := some now } }]) := by
  simp [editMessage, h]

theorem sendMessage_text_eq (st : ServerState) (senderId : UserId) (sid : Nat)
    (target : UserId) (c : List Char) (fileData : Option FileData) (now : Nat) :
    sendMessage st senderId sid (some target) (some c) fileData MessageType.text now =
      (if (jsTrim c).isEmpty then (st, [])
       else if decide (1000 < c.length) then
         (st, [{ target := EvTarget.socketOnly sid,
                 payload := EvPayload.errorMsg "Message too long".toList }])
       else
         ({ st with
            messages := st.messages ++
              [{ mid := st.nextId, content := jsTrim c, sender := senderId, receiver := target,
                 messageType := MessageType.text, fileData := fileData, readBy := [],
                 edited := false, editedAt := none, createdAt := now }],
            nextId := st.nextId + 1 },
          [{ target := EvTarget.room (getPrivateRoomName senderId target),
             payload := EvPayload.message
               { mid := st.nextId, content := jsTrim c, sender := senderId, receiver := target,
                 messageType := MessageType.text, fileData := fileData, readBy := [],
                 edited := false, editedAt := none, createdAt := now } }])) := rfl

theorem sendMessage_file_eq (st : ServerState) (senderId : UserId) (sid : Nat)
    (target : UserId) (content : Option (List Char)) (fileData : Option FileData) (now : Nat) :
    sendMessage st senderId sid (some target) content fileData MessageType.file now =
      ({ st with
         messages := st.messages ++
           [{ mid := st.nextId, content := [], sender := senderId, receiver := target,
              messageType := MessageType.file, fileData := fileData, readBy := [],
              edited := false, editedAt := none, createdAt := now }],
         nextId := st.nextId + 1 },
       [{ target := EvTarget.room (getPrivateRoomName senderId target),
          payload := EvPayload.message
            { mid := st.nextId, content := [], sender := senderId, receiver := target,
              messageType := MessageType.file, fileData := fileData, readBy := [],
              edited := false, editedAt := none, createdAt := now } }]) := rfl

theorem sendMessage_image_eq (st : ServerState) (senderId : UserId) (sid : Nat)
    (target : UserId) (content : Option (List Char)) (fileData : Option FileData) (now : Nat) :
    sendMessage st senderId sid (some target) content fileData MessageType.image now =
      ({ st with
         messages := st.messages ++
           [{ mid := st.nextId, content := [], sender := senderId, receiver := target,
              messageType := MessageType.image, fileData := fileData, readBy := [],
              edited := false, editedAt := none, createdAt := now }],
         nextId := st.nextId + 1 },
       [{ target := EvTarget.room (getPrivateRoomName senderId target),
          payload := EvPayload.message
            { mid := st.nextId, content := [], sender := senderId, receiver := target,
              messageType := MessageType.image, fileData := fileData, readBy := [],
              edited := false, editedAt := none, createdAt := now } }]) := rfl

theorem jsTrim_replicate_a (n : Nat) : jsTrim (List.replicate n 'a') = List.replicate n 'a' := by
  have hdrop : ∀ m : Nat, List.dropWhile isWs (List.replicate m 'a') = List.replicate m 'a' := by
    intro m
    cases m with
    | zero => rfl
    | succ k => simp [List.replicate_succ, List.dropWhile, isWs]
  unfold jsTrim
  rw [hdrop, List.reverse_replicate, hdrop, List.reverse_replicate]

/-! Concrete fixtures used by counterexamples and witnesses. -/

/-- A persisted text message from 'a' to 'b' with _id 0. -/
def msgAB : PrivateMessage :=
  { mid := 0, content := ['h', 'i'], sender := ['a'], receiver := ['b'],
    messageType := MessageType.text, fileData := none, readBy := [],
    edited := false, editedAt := none, createdAt := 0 }

/-- A store holding just msgAB. -/
def stAB : ServerState := { emptyState with messages := [msgAB], nextId := 1 }

/-! Claim theorems. -/

/-- Claim C1, amended: after connect(u, c1) followed by connect(u, c2) the
presence entry of u records active connection c2; but a subsequent
disconnect carrying the stale connection id c1 still marks u offline, both
in the in-memory presence table (the entry is deleted) and in the mirrored
user record (isOnline set to false, lastSeen stamped): the disconnect
handler never compares the disconnecting connection id with the recorded
one. -/
theorem c1_stale_disconnect_goes_offline
    (st : ServerState) (u : UserId) (name : List Char) (c1 c2 t1 t2 t3 : Nat)
    (hc : c1 ≠ c2) :
    mapGet ((connectionHandler (connectionHandler st u name c1 t1).1 u name c2 t2).1.onlineUsers) u
      = some { uid := u, username := name, socketId := c2 } ∧
    mapGet ((disconnectHandler ((connectionHandler (connectionHandler st u name c1 t1).1 u name c2 t2).1) u c1 t3).1.onlineUsers) u
      = none ∧
    mapGet ((disconnectHandler ((connectionHandler (connectionHandler st u name c1 t1).1 u name c2 t2).1) u c1 t3).1.users) u
      = some { isOnline := false, socketId := none, lastSeen := some t3 } := by
  refine ⟨?_, ?_, ?_⟩
  · simp [connectionHandler, mapGet_mapSet_self]
  · simp [connectionHandler, disconnectHandler, mapGet_mapDelete_self]
  · simp [connectionHandler, disconnectHandler, mapGet_mapSet_self]

/-- Claim C1, counterexample to the claim as stated: with identity u and
connection ids 1 and 2, after connect(u, 1), connect(u, 2) and a stale
disconnect carrying id 1, u is not marked online anywhere: the in-memory
entry is gone and the mirrored record says offline. -/
theorem c1_claim_counterexample :
    mapGet ((disconnectHandler ((connectionHandler (connectionHandler emptyState ['u'] ['u'] 1 10).1 ['u'] ['u'] 2 20).1) ['u'] 1 30).1.onlineUsers) ['u']
      = none ∧
    mapGet ((disconnectHandler ((connectionHandler (connectionHandler emptyState ['u'] ['u'] 1 10).1 ['u'] ['u'] 2 20).1) ['u'] 1 30).1.users) ['u']
      = some { isOnline := false, socketId := none, lastSeen := some 30 } := by
  decide

/-- Claim C1, witness instantiating the amended theorem at u, c1 = 1, c2 = 2. -/
theorem c1_stale_disconnect_goes_offline_witness :
    (1 : Nat) ≠ 2 ∧
    (mapGet ((connectionHandler (connectionHandler emptyState ['u'] ['u'] 1 10).1 ['u'] ['u'] 2 20).1.onlineUsers) ['u']
      = some { uid := ['u'], username := ['u'], socketId := 2 } ∧
    mapGet ((disconnectHandler ((connectionHandler (connectionHandler emptyState ['u'] ['u'] 1 10).1 ['u'] ['u'] 2 20).1) ['u'] 1 30).1.onlineUsers) ['u']
      = none ∧
    mapGet ((disconnectHandler ((connectionHandler (connectionHandler emptyState ['u'] ['u'] 1 10).1 ['u'] ['u'] 2 20).1) ['u'] 1 30).1.users) ['u']
      = some { isOnline := false, socketId := none, lastSeen := some 30 }) :=
  ⟨by decide, c1_stale_disconnect_goes_offline emptyState ['u'] ['u'] 1 2 10 20 30 (by decide)⟩

/-- Claim C2, the code evaluated at the failing input: reader 'b' marks
message 0 as read at time 10 and again at time 20; because $addToSet
deduplicates by the whole (user, readAt) document and the two readAt values
differ, readBy ends with two entries for 'b', not one. -/
theorem c2_markAsRead_twice_two_entries :
    ((markAsRead (markAsRead stAB ['b'] 0 10).1 ['b'] 0 20).1.messages.map PrivateMessage.readBy)
      = [[(['b'], 10), (['b'], 20)]] ∧
    ((markAsRead (markAsRead stAB ['b'] 0 10).1 ['b'] 0 20).1.messages.map
        (fun m => (m.readBy.filter (fun e => e.1 == ['b'])).length)) = [2] := by
  decide

/-- Claim C4, amended: sendMessage performs no self-conversation check: a
text send whose target equals the caller's own identity passes validation,
is persisted with sender equal to receiver, and is broadcast to the room
key computed from the identical pair. -/
theorem c4_self_message_persisted (st : ServerState) (a : UserId) (sid : Nat)
    (c : List Char) (now : Nat)
    (h1 : jsTrim c ≠ []) (h2 : c.length ≤ 1000) :
    (sendMessage st a sid (some a) (some c) none MessageType.text now).1.messages
      = st.messages ++
        [{ mid := st.nextId, content := jsTrim c, sender := a, receiver := a,
           messageType := MessageType.text, fileData := none, readBy := [],
           edited := false, editedAt := none, createdAt := now }] ∧
    (sendMessage st a sid (some a) (some c) none MessageType.text now).2
      = [{ target := EvTarget.room (getPrivateRoomName a a),
           payload := EvPayload.message
             { mid := st.nextId, content := jsTrim c, sender := a, receiver := a,
               messageType := MessageType.text, fileData := none, readBy := [],
               edited := false, editedAt := none, createdAt := now } }] := by
  have hblank : (jsTrim c).isEmpty = false := by
    cases hj : jsTrim c with
    | nil => exact absurd hj h1
    | cons q qs => rfl
  have hlen : ¬ 1000 < c.length := not_lt.mpr h2
  constructor <;> simp [sendMessage_text_eq, hblank, hlen]

/-- Claim C4, counterexample to the claim as stated: the concrete send of
"hi" by 'a' targeting 'a' itself persists a message whose sender and
receiver are both 'a'. -/
theorem c4_claim_counterexample :
    ((sendMessage emptyState ['a'] 1 (some ['a']) (some ['h', 'i']) none MessageType.text 7).1.messages.map
      (fun m => (m.sender, m.receiver))) = [(['a'], ['a'])] := by
  decide

/-- Claim C4, witness instantiating the amended theorem at a = 'a',
content "hi". -/
theorem c4_self_message_persisted_witness :
    jsTrim ['h', 'i'] ≠ [] ∧ (['h', 'i'] : List Char).length ≤ 1000 ∧
    ((sendMessage emptyState ['a'] 1 (some ['a']) (some ['h', 'i']) none MessageType.text 7).1.messages
      = emptyState.messages ++
        [{ mid := emptyState.nextId, content := jsTrim ['h', 'i'], sender := ['a'], receiver := ['a'],
           messageType := MessageType.text, fileData := none, readBy := [],
           edited := false, editedAt := none, createdAt := 7 }] ∧
    (sendMessage emptyState ['a'] 1 (some ['a']) (some ['h', 'i']) none MessageType.text 7).2
      = [{ target := EvTarget.room (getPrivateRoomName ['a'] ['a']),
           payload := EvPayload.message
             { mid := emptyState.nextId, content := jsTrim ['h', 'i'], sender := ['a'], receiver := ['a'],
               messageType := MessageType.text, fileData := none, readBy := [],
               edited := false, editedAt := none, createdAt := 7 } }]) :=
  ⟨by decide, by decide,
   c4_self_message_persisted emptyState ['a'] 1 ['h', 'i'] 7 (by decide) (by decide)⟩

/-- Claim C5, amended: a non-blank text of length exactly 1000 is accepted,
persisted and broadcast; a non-blank text longer than 1000 characters is
rejected with a local error event to the sender alone and nothing
persisted; an empty or whitespace-only text is dropped silently: nothing
persisted, nothing broadcast, and no event at all (not even an error). -/
theorem c5_text_validation_boundary (st : ServerState) (s t : UserId) (sid : Nat)
    (c1 c2 c3 : List Char) (now : Nat)
    (h1a : jsTrim c1 ≠ []) (h1b : c1.length = 1000)
    (h2a : jsTrim c2 ≠ []) (h2b : 1000 < c2.length)
    (h3 : jsTrim c3 = []) :
    (sendMessage st s sid (some t) (some c1) none MessageType.text now).1.messages
      = st.messages ++
        [{ mid := st.nextId, content := jsTrim c1, sender := s, receiver := t,
           messageType := MessageType.text, fileData := none, readBy := [],
           edited := false, editedAt := none, createdAt := now }] ∧
    sendMessage st s sid (some t) (some c2) none MessageType.text now
      = (st, [{ target := EvTarget.socketOnly sid,
                payload := EvPayload.errorMsg "Message too long".toList }]) ∧
    sendMessage st s sid (some t) (some c3) none MessageType.text now = (st, []) := by
  have hblank1 : (jsTrim c1).isEmpty = false := by
    cases hj : jsTrim c1 with
    | nil => exact absurd hj h1a
    | cons q qs => rfl
  have hblank2 : (jsTrim c2).isEmpty = false := by
    cases hj : jsTrim c2 with
    | nil => exact absurd hj h2a
    | cons q qs => rfl
  have hlen1 : ¬ 1000 < c1.length := by omega
  have hblank3 : (jsTrim c3).isEmpty = true := by simp [h3]
  refine ⟨?_, ?_, ?_⟩
  · simp [sendMessage_text_eq, hblank1, hlen1]
  · simp [sendMessage_text_eq, hblank2, h2b]
  · simp [sendMessage_text_eq, hblank3]

/-- Claim C5, counterexample to the claim as stated: a whitespace-only text
send leaves the state unchanged and emits no event at all, so the
originating session does not receive the claimed local error event. -/
theorem c5_claim_counterexample :
    sendMessage emptyState ['a'] 1 (some ['b']) (some [' ']) none MessageType.text 3
      = (emptyState, []) := by
  decide

/-- Claim C5, witness instantiating the amended theorem at contents of
length 1000, length 1001, and a single blank. -/
theorem c5_text_validation_boundary_witness :
    jsTrim (List.replicate 1000 'a') ≠ [] ∧ (List.replicate 1000 'a').length = 1000 ∧
    jsTrim (List.replicate 1001 'a') ≠ [] ∧ 1000 < (List.replicate 1001 'a').length ∧
    jsTrim [' '] = [] ∧
    ((sendMessage emptyState ['a'] 1 (some ['b']) (some (List.replicate 1000 'a')) none MessageType.text 3).1.messages
      = emptyState.messages ++
        [{ mid := emptyState.nextId, content := jsTrim (List.replicate 1000 'a'), sender := ['a'], receiver := ['b'],
           messageType := MessageType.text, fileData := none, readBy := [],
           edited := false, editedAt := none, createdAt := 3 }] ∧
    sendMessage emptyState ['a'] 1 (some ['b']) (some (List.replicate 1001 'a')) none MessageType.text 3
      = (emptyState, [{ target := EvTarget.socketOnly 1,
                        payload := EvPayload.errorMsg "Message too long".toList }]) ∧
    sendMessage emptyState ['a'] 1 (some ['b']) (some [' ']) none MessageType.text 3
      = (emptyState, [])) :=
  ⟨by rw [jsTrim_replicate_a]; simp, by simp, by rw [jsTrim_replicate_a]; simp, by simp,
   by decide,
   c5_text_validation_boundary emptyState ['a'] ['b'] 1
     (List.replicate 1000 'a') (List.replicate 1001 'a') [' '] 3
     (by rw [jsTrim_replicate_a]; simp) (by simp)
     (by rw [jsTrim_replicate_a]; simp) (by simp) (by decide)⟩

/-- Claim C3, amended: a message accepted by sendMessage and then fetched by
joinPrivateChat's history load comes back with messageType and fileDescriptor
byte-identical to what was sent, and with content equal to the JS trim of the
sent content for text (the empty string for non-text types); the content is
byte-identical exactly when the sent text carries no leading or trailing
whitespace. -/
theorem c3_roundtrip_modulo_trim (st : ServerState) (s t : UserId) (sid : Nat)
    (c : List Char) (fd : Option FileData) (mt : MessageType) (now : Nat)
    (h0 : st.messages = [])
    (hv : mt = MessageType.text → jsTrim c ≠ [] ∧ c.length ≤ 1000) :
    (joinPrivateChat (sendMessage st s sid (some t) (some c) fd mt now).1 s sid t).2
      = [{ target := EvTarget.socketOnly sid,
           payload := EvPayload.recentMessages (getPrivateRoomName s t)
             [{ mid := st.nextId,
                content := if mt = MessageType.text then jsTrim c else [],
                sender := s, receiver := t, messageType := mt, fileData := fd,
                readBy := [], edited := false, editedAt := none, createdAt := now }] t }] := by
  cases mt with
  | text =>
    obtain ⟨h1, h2⟩ := hv rfl
    have hblank : (jsTrim c).isEmpty = false := by
      cases hj : jsTrim c with
      | nil => exact absurd hj h1
      | cons q qs => rfl
    have hlen : ¬ 1000 < c.length := not_lt.mpr h2
    simp [sendMessage_text_eq, hblank, hlen, joinPrivateChat, h0, pairMatch,
      sortByCreatedAtDesc, List.insertionSort, List.orderedInsert]
  | file =>
    simp [sendMessage_file_eq, joinPrivateChat, h0, pairMatch,
      sortByCreatedAtDesc, List.insertionSort, List.orderedInsert]
  | image =>
    simp [sendMessage_image_eq, joinPrivateChat, h0, pairMatch,
      sortByCreatedAtDesc, List.insertionSort, List.orderedInsert]

/-- Claim C3, counterexample to the claim as stated: the text " hi" (with a
leading space) passes validation, but the message returned by the history
load carries content "hi" which is not byte-identical to " hi". -/
theorem c3_claim_counterexample :
    (joinPrivateChat (sendMessage emptyState ['a'] 1 (some ['b']) (some [' ', 'h', 'i']) none MessageType.text 5).1 ['a'] 1 ['b']).2
      = [{ target := EvTarget.socketOnly 1,
           payload := EvPayload.recentMessages (getPrivateRoomName ['a'] ['b'])
             [{ mid := 0, content := ['h', 'i'], sender := ['a'], receiver := ['b'],
                messageType := MessageType.text, fileData := none, readBy := [],
                edited := false, editedAt := none, createdAt := 5 }] ['b'] }] ∧
    (['h', 'i'] : List Char) ≠ [' ', 'h', 'i'] := by
  decide

/-- Claim C3, witness instantiating the amended theorem with the trim-stable
text "hi". -/
theorem c3_roundtrip_modulo_trim_witness :
    emptyState.messages = [] ∧
    (MessageType.text = MessageType.text → jsTrim ['h', 'i'] ≠ [] ∧ (['h', 'i'] : List Char).length ≤ 1000) ∧
    (joinPrivateChat (sendMessage emptyState ['a'] 1 (some ['b']) (some ['h', 'i']) none MessageType.text 5).1 ['a'] 1 ['b']).2
      = [{ target := EvTarget.socketOnly 1,
           payload := EvPayload.recentMessages (getPrivateRoomName ['a'] ['b'])
             [{ mid := emptyState.nextId,
                content := if MessageType.text = MessageType.text then jsTrim ['h', 'i'] else [],
                sender := ['a'], receiver := ['b'], messageType := MessageType.text, fileData := none,
                readBy := [], edited := false, editedAt := none, createdAt := 5 }] ['b'] }] :=
  ⟨rfl, fun _ => ⟨by decide, by decide⟩,
   c3_roundtrip_modulo_trim emptyState ['a'] ['b'] 1 ['h', 'i'] none MessageType.text 5
     rfl (fun _ => ⟨by decide, by decide⟩)⟩

/-- Claim C6, amended: the room key function is commutative for all identity
pairs; it is pairwise distinguishing for identities that do not contain the
character '-' used by the separator (which holds for the hexadecimal
ObjectId strings the server passes in), but not for arbitrary strings. -/
theorem c6_roomName_comm_and_inj (a b c : UserId)
    (ha : '-' ∉ a) (hb : '-' ∉ b) (hc : '-' ∉ c) (hbc : b ≠ c) :
    getPrivateRoomName a b = getPrivateRoomName b a ∧
    getPrivateRoomName a b ≠ getPrivateRoomName a c :=
  ⟨getPrivateRoomName_comm a b, fun h => hbc (getPrivateRoomName_inj hb hc ha h)⟩

/-- Claim C6, counterexample to the claim as stated: for identities that
contain the separator, two distinct partners of the same identity can yield
the same room key. -/
theorem c6_claim_counterexample :
    getPrivateRoomName "-privatez-private".toList "z-private".toList =
      getPrivateRoomName "-privatez-private".toList "-privatez".toList ∧
    ("z-private".toList : List Char) ≠ "-privatez".toList := by
  decide

/-- Claim C6, witness instantiating the amended theorem at the separator-free
identities "x", "y", "z". -/
theorem c6_roomName_comm_and_inj_witness :
    ('-' ∉ (['x'] : UserId)) ∧ ('-' ∉ (['y'] : UserId)) ∧ ('-' ∉ (['z'] : UserId)) ∧
    (['y'] : UserId) ≠ ['z'] ∧
    (getPrivateRoomName ['x'] ['y'] = getPrivateRoomName ['y'] ['x'] ∧
     getPrivateRoomName ['x'] ['y'] ≠ getPrivateRoomName ['x'] ['z']) :=
  ⟨by decide, by decide, by decide, by decide,
   c6_roomName_comm_and_inj ['x'] ['y'] ['z'] (by decide) (by decide) (by decide) (by decide)⟩

/-- Claim C7: a markAsRead or editMessage request whose message id matches no
stored message is silently ignored: the state is returned unchanged and no
event of any kind is emitted. -/
theorem c7_unknown_id_silently_ignored (st : ServerState) (reader editor : UserId)
    (i : Nat) (now : Nat) (nc : List Char)
    (h : findById st.messages i = none) :
    markAsRead st reader i now = (st, []) ∧ editMessage st editor i nc now = (st, []) := by
  constructor
  · simp [markAsRead, h]
  · simp [editMessage, h]

/-- Claim C7, witness instantiating the theorem at the empty store and
message id 0. -/
theorem c7_unknown_id_silently_ignored_witness :
    findById emptyState.messages 0 = none ∧
    (markAsRead emptyState ['a'] 0 5 = (emptyState, []) ∧
     editMessage emptyState ['a'] 0 ['x'] 5 = (emptyState, [])) :=
  ⟨rfl, c7_unknown_id_silently_ignored emptyState ['a'] ['a'] 0 5 ['x'] rfl⟩

/-- Claim C8: editMessage on an existing message replaces its content, sets
edited to true and editedAt to the edit time, and broadcasts a messageEdited
event carrying the updated message to the room keyed by the message's own
sender and receiver; the result is independent of the identity performing
the edit, so either participant (indeed any connected session) can edit. -/
theorem c8_edit_replaces_and_broadcasts (st : ServerState) (editor : UserId)
    (i : Nat) (nc : List Char) (now : Nat) (m : PrivateMessage)
    (h : findById st.messages i = some m) :
    findById (editMessage st editor i nc now).1.messages i
      = some { m with content := nc, edited := true, editedAt := some now } ∧
    (editMessage st editor i nc now).2
      = [{ target := EvTarget.room (getPrivateRoomName m.sender m.receiver),
           payload := EvPayload.messageEdited
             { m with content := nc, edited := true, editedAt := some now } }] ∧
    ∀ editor2 : UserId, editMessage st editor2 i nc now = editMessage st editor i nc now := by
  have hmid : m.mid = i := findById_mid h
  refine ⟨?_, ?_, ?_⟩
  · rw [editMessage_found h]
    exact findById_updateById_replace h hmid
  · rw [editMessage_found h]
  · intro e2
    rw [editMessage_found h, editMessage_found h]

/-- Claim C8, witness instantiating the theorem: 'b' (not the sender) edits
message 0 of the store holding msgAB. -/
theorem c8_edit_replaces_and_broadcasts_witness :
    findById stAB.messages 0 = some msgAB ∧
    (findById (editMessage stAB ['b'] 0 ['y', 'o'] 9).1.messages 0
      = some { msgAB with content := ['y', 'o'], edited := true, editedAt := some 9 } ∧
    (editMessage stAB ['b'] 0 ['y', 'o'] 9).2
      = [{ target := EvTarget.room (getPrivateRoomName msgAB.sender msgAB.receiver),
           payload := EvPayload.messageEdited
             { msgAB with content := ['y', 'o'], edited := true, editedAt := some 9 } }] ∧
    ∀ editor2 : UserId, editMessage stAB editor2 0 ['y', 'o'] 9 = editMessage stAB ['b'] 0 ['y', 'o'] 9) :=
  ⟨by decide, c8_edit_replaces_and_broadcasts stAB ['b'] 0 ['y', 'o'] 9 msgAB (by decide)⟩

/-- Claim C10: editMessage applies no content validation: for every new
content, including the empty string and strings longer than 1000 characters,
the edit on an existing message stores exactly that content and broadcasts
messageEdited, and no error event is emitted. -/
theorem c10_edit_applies_no_validation (st : ServerState) (editor : UserId)
    (i : Nat) (now : Nat) (m : PrivateMessage)
    (h : findById st.messages i = some m) (nc : List Char) :
    (∃ updated, findById (editMessage st editor i nc now).1.messages i = some updated ∧
       updated.content = nc) ∧
    (editMessage st editor i nc now).2
      = [{ target := EvTarget.room (getPrivateRoomName m.sender m.receiver),
           payload := EvPayload.messageEdited
             { m with content := nc, edited := true, editedAt := some now } }] ∧
    ∀ e ∈ (editMessage st editor i nc now).2, ∀ s, e.payload ≠ EvPayload.errorMsg s := by
  have hmid : m.mid = i := findById_mid h
  refine ⟨⟨{ m with content := nc, edited := true, editedAt := some now }, ?_, rfl⟩, ?_, ?_⟩
  · rw [editMessage_found h]
    exact findById_updateById_replace h hmid
  · rw [editMessage_found h]
  · rw [editMessage_found h]
    intro e he s
    simp only [List.mem_singleton] at he
    subst he
    simp

/-- Claim C10, witness instantiating the theorem with a 1001-character new
content, which sendMessage would reject but editMessage accepts. -/
theorem c10_edit_applies_no_validation_witness :
    findById stAB.messages 0 = some msgAB ∧
    ((∃ updated, findById (editMessage stAB ['a'] 0 (List.replicate 1001 'x') 9).1.messages 0 = some updated ∧
       updated.content = List.replicate 1001 'x') ∧
    (editMessage stAB ['a'] 0 (List.replicate 1001 'x') 9).2
      = [{ target := EvTarget.room (getPrivateRoomName msgAB.sender msgAB.receiver),
           payload := EvPayload.messageEdited
             { msgAB with content := List.replicate 1001 'x', edited := true, editedAt := some 9 } }] ∧
    ∀ e ∈ (editMessage stAB ['a'] 0 (List.replicate 1001 'x') 9).2, ∀ s, e.payload ≠ EvPayload.errorMsg s) :=
  ⟨by decide, c10_edit_applies_no_validation stAB ['a'] 0 9 msgAB (by decide) (List.replicate 1001 'x')⟩

/-- A later reply from 'b' to 'a' with _id 1. -/
def msgBA : PrivateMessage :=
  { mid := 1, content := ['y', 'o'], sender := ['b'], receiver := ['a'],
    messageType := MessageType.text, fileData := none, readBy := [],
    edited := false, editedAt := none, createdAt := 2 }

/-- A message from 'a' to a third identity 'c' with _id 2. -/
def msgAC : PrivateMessage :=
  { mid := 2, content := ['z'], sender := ['a'], receiver := ['c'],
    messageType := MessageType.text, fileData := none, readBy := [],
    edited := false, editedAt := none, createdAt := 3 }

/-- A chronologically ordered store mixing two conversations. -/
def stMix : ServerState := { emptyState with messages := [msgAB, msgBA, msgAC], nextId := 3 }

/-- Claim C9: joinPrivateChat subscribes the requesting session to the room
keyed by caller and target (replacing its previous subscriptions), and
delivers to the requesting session only — the emitted event list is a single
socket-local event — the most recent messages exchanged between the two
identities: at most 50 of them, forming a suffix of the chronologically
ordered pair history, ordered oldest to newest.  The hypothesis states that
the store is chronologically ordered, which holds because createdAt is
stamped monotonically at persistence time. -/
theorem c9_join_delivers_recent_history (st : ServerState) (me : UserId)
    (sid : Nat) (target : UserId)
    (hchron : st.messages.Pairwise (fun m1 m2 => m1.createdAt < m2.createdAt)) :
    mapGet (joinPrivateChat st me sid target).1.userRooms sid
      = some [getPrivateRoomName me target] ∧
    (joinPrivateChat st me sid target).2
      = [{ target := EvTarget.socketOnly sid,
           payload := EvPayload.recentMessages (getPrivateRoomName me target)
             (((st.messages.filter (pairMatch me target)).reverse.take 50).reverse) target }] ∧
    (((st.messages.filter (pairMatch me target)).reverse.take 50).reverse).length
      = min 50 (st.messages.filter (pairMatch me target)).length ∧
    (((st.messages.filter (pairMatch me target)).reverse.take 50).reverse)
      <:+ st.messages.filter (pairMatch me target) ∧
    (((st.messages.filter (pairMatch me target)).reverse.take 50).reverse).Pairwise
      (fun m1 m2 => m1.createdAt < m2.createdAt) := by
  have hfil : (st.messages.filter (pairMatch me target)).Pairwise
      (fun m1 m2 => m1.createdAt < m2.createdAt) :=
    hchron.sublist (List.filter_sublist _)
  refine ⟨?_, ?_, ?_, ?_, ?_⟩
  · simp [joinPrivateChat, mapGet_mapSet_self]
  · simp [joinPrivateChat, sortByCreatedAtDesc_of_chron hfil]
  · simp
  · exact reverse_take_reverse_suffix _ 50
  · exact hfil.sublist (reverse_take_reverse_suffix _ 50).sublist

/-- Claim C9, witness instantiating the theorem on a store mixing the 'a'/'b'
conversation with a message to 'c': the 'a'/'b' join delivers exactly the two
pair messages, oldest first, to the requester alone. -/
theorem c9_join_delivers_recent_history_witness :
    stMix.messages.Pairwise (fun m1 m2 => m1.createdAt < m2.createdAt) ∧
    (mapGet (joinPrivateChat stMix ['a'] 1 ['b']).1.userRooms 1
      = some [getPrivateRoomName ['a'] ['b']] ∧
    (joinPrivateChat stMix ['a'] 1 ['b']).2
      = [{ target := EvTarget.socketOnly 1,
           payload := EvPayload.recentMessages (getPrivateRoomName ['a'] ['b'])
             (((stMix.messages.filter (pairMatch ['a'] ['b'])).reverse.take 50).reverse) ['b'] }] ∧
    (((stMix.messages.filter (pairMatch ['a'] ['b'])).reverse.take 50).reverse).length
      = min 50 (stMix.messages.filter (pairMatch ['a'] ['b'])).length ∧
    (((stMix.messages.filter (pairMatch ['a'] ['b'])).reverse.take 50).reverse)
      <:+ stMix.messages.filter (pairMatch ['a'] ['b']) ∧
    (((stMix.messages.filter (pairMatch ['a'] ['b'])).reverse.take 50).reverse).Pairwise
      (fun m1 m2 => m1.createdAt < m2.createdAt)) :=
  ⟨by decide, c9_join_delivers_recent_history stMix ['a'] 1 ['b'] (by decide)⟩

end Chat
